import Mathlib

/-!
Verification of the AtmoScan UI manager (src/__ATMOSCAN_MASTER_V3.3.1/P_UIManager.cpp).

Shallow embedding: the gesture decode/remap step (getUserEvent), the swipe
handler (handleSwipe), the interrupt-side event latch (onGesture), the
task-side event gate of Proc_UIManager::service (debounce / latch clearing),
the event dispatch else-if chain of service, the low-battery branch of
service, the state-of-charge computation, and the idle-timeout expression.

Machine integers: millis() returns a 32-bit unsigned long; its subtraction is
modelled by sub32 on Nat.  Float arithmetic on voltages and state of charge is
modelled over the rationals.  Constants that live in headers outside the
repository snapshot (VOLT_LOW, VOLT_HIGH, BACKLIGHT_TIMEOUT, LOWBATT_SCREEN,
SETUP_SCREEN, the screen count) are carried as parameters.
-/

namespace AtmoScan

/-- Gesture codes of the PAJ7620 sensor as consumed by P_UIManager.cpp
(GES_UP .. GES_WAVE and GES_NONE); any raw code outside the known closed set
is represented by the catch-all constructor carrying the raw value. -/
inductive Gesture where
  | up
  | down
  | left
  | right
  | forward
  | backward
  | clockwise
  | cntrclockwise
  | wave
  | none
  | other (code : Nat)
deriving DecidableEq, Repr

/-- Unsigned 32-bit subtraction, as performed by the expressions
millis() - lastEventProcessing and millis() - eventTime on unsigned long. -/
def sub32 (a b : Nat) : Nat :=
  ((a % 4294967296) + 4294967296 - b % 4294967296) % 4294967296

/-- Proc_UIManager::getUserEvent (lines 468-549): reads a raw gesture and
remaps up/down/left/right according to currentScreenRotation (0 or 2); the
cases for forward, backward, clockwise, counter-clockwise and wave fall
through with a bare break, GES_NONE and unknown codes reach the default label
(debug logging only), so all of these are returned unchanged. -/
def getUserEvent (gesture : Gesture) (currentScreenRotation : Nat) : Gesture :=
  match gesture with
  | Gesture.up => if currentScreenRotation = 0 then Gesture.left else Gesture.right
  | Gesture.down => if currentScreenRotation = 0 then Gesture.right else Gesture.left
  | Gesture.left => if currentScreenRotation = 0 then Gesture.down else Gesture.up
  | Gesture.right => if currentScreenRotation = 0 then Gesture.up else Gesture.down
  | Gesture.forward => Gesture.forward
  | Gesture.backward => Gesture.backward
  | Gesture.clockwise => Gesture.clockwise
  | Gesture.cntrclockwise => Gesture.cntrclockwise
  | Gesture.wave => Gesture.wave
  | Gesture.none => Gesture.none
  | Gesture.other code => Gesture.other code

/-- Proc_UIManager::handleSwipe (lines 449-464): curScrn is an int; the
screen count comes from ScreenFactory::getScreenCount(). -/
def handleSwipe (screenCount : Nat) (evt : Gesture) (curScrn : Int) : Int :=
  if evt = Gesture.right then
    let c := curScrn + 1
    if c ≥ (screenCount : Int) then 1 else c
  else if evt = Gesture.left then
    let c := curScrn - 1
    if c < 1 then (screenCount : Int) - 1 else c
  else
    curScrn

/-- State touched by the gesture interrupt handler Proc_UIManager::onGesture:
the event flag, the event timestamp, and the number of force() dispatch
requests issued to the scheduler. -/
structure GestureLatch where
  eventFlag : Bool
  eventTime : Nat
  forceCount : Nat
deriving DecidableEq, Repr

/-- Proc_UIManager::onGesture (lines 429-446): if eventFlag is not set, set
it, request a forced dispatch, and record the event time; otherwise do
nothing at all. -/
def onGesture (s : GestureLatch) (now : Nat) : GestureLatch :=
  if !s.eventFlag then
    { eventFlag := true, eventTime := now, forceCount := s.forceCount + 1 }
  else
    s

/-- Number of events currently held by the single-slot latch. -/
def pendingEvents (s : GestureLatch) : Nat :=
  if s.eventFlag then 1 else 0

/-- State read and written by the debounce gate at the top of the event
branch of Proc_UIManager::service (lines 179-199). -/
structure EventGate where
  eventFlag : Bool
  lastEventProcessing : Nat
deriving DecidableEq, Repr

/-- The event gate of Proc_UIManager::service (lines 179-199): if eventFlag
is set and more than 1000 ms of the 32-bit millis clock have elapsed since
lastEventProcessing, record the processing time, clear the flag and process
the event (returned Bool is the wasEvent marker); note that eventFlag is
assigned false only inside the debounce-passed branch. -/
def serviceEventGate (s : EventGate) (now : Nat) : EventGate × Bool :=
  if s.eventFlag then
    if sub32 now s.lastEventProcessing > 1000 then
      ({ eventFlag := false, lastEventProcessing := now }, true)
    else
      (s, false)
  else
    (s, false)

/-- Screen lifecycle events, as issued by Proc_UIManager::service on the
current Screen instance (activate/deactivate calls, operator new/delete). -/
inductive LifeEvent where
  | deactivate (id : Int)
  | destroy (id : Int)
  | construct (id : Int)
  | activate (id : Int)
deriving DecidableEq, Repr

/-- Multiset of currently activated screen instances, evolved by a lifecycle
event: activate adds an instance, deactivate removes one, construction and
destruction do not change activation. -/
def activeStep (active : List Int) (e : LifeEvent) : List Int :=
  match e with
  | LifeEvent.activate id => id :: active
  | LifeEvent.deactivate id => active.erase id
  | LifeEvent.destroy _ => active
  | LifeEvent.construct _ => active

/-- Safety of a screen-replacing transition trace: the outgoing instance is
deactivated, then destroyed, strictly before the incoming one is constructed
and then activated, and at no point of the trace (started with only the
outgoing instance activated) is more than one instance activated. -/
def ScreenReplacementSafe (old new : Int) (τ : List LifeEvent) : Prop :=
  (∃ i j k l : Nat, i < j ∧ j < k ∧ k < l ∧
      τ.get? i = some (LifeEvent.deactivate old) ∧
      τ.get? j = some (LifeEvent.destroy old) ∧
      τ.get? k = some (LifeEvent.construct new) ∧
      τ.get? l = some (LifeEvent.activate new)) ∧
  (∀ acts ∈ List.scanl activeStep [old] τ, acts.length ≤ 1)

/-- Navigation state touched by the event dispatch chain of
Proc_UIManager::service. -/
structure DispState where
  isDisplayOn : Bool
  currentScreenID : Int
  currentScreenRotation : Nat
deriving DecidableEq, Repr

/-- The event dispatch else-if chain of Proc_UIManager::service
(lines 200-378), run once the debounce gate has passed and eventID has been
read.  cancelEvent is the value returned by currentScreen->onUserEvent.
Mirrors the source chain:
if the display was off, just turn it on;
else if currentScreenID == LOWBATT_SCREEN, the branch normalises eventID
(a value that is never read again) and the chain ends with no action;
else if eventID == GES_FORWARD, switch the display off (the spurious-event
cleanup that follows only touches the interrupt latch);
else if eventID != GES_NONE and the screen did not cancel the event,
counter-clockwise replaces the screen by SETUP_SCREEN, clockwise toggles the
rotation between 0 and 2 deactivating and reactivating the same instance, and
any other event goes through handleSwipe, replacing the screen only when the
computed id differs.  The second component is the trace of screen lifecycle
events, in source order. -/
def dispatchEvent (lowbattScreen setupScreen : Int) (screenCount : Nat)
    (cancelEvent : Bool) (s : DispState) (eventID : Gesture) :
    DispState × List LifeEvent :=
  if !s.isDisplayOn then
    ({ s with isDisplayOn := true }, [])
  else if s.currentScreenID = lowbattScreen then
    (s, [])
  else if eventID = Gesture.forward then
    ({ s with isDisplayOn := false }, [])
  else if eventID ≠ Gesture.none then
    if !cancelEvent then
      if eventID = Gesture.cntrclockwise then
        ({ s with currentScreenID := setupScreen },
         [LifeEvent.deactivate s.currentScreenID, LifeEvent.destroy s.currentScreenID,
          LifeEvent.construct setupScreen, LifeEvent.activate setupScreen])
      else if eventID = Gesture.clockwise then
        ({ s with currentScreenRotation := if s.currentScreenRotation = 0 then 2 else 0 },
         [LifeEvent.deactivate s.currentScreenID, LifeEvent.activate s.currentScreenID])
      else
        let newScreenID := handleSwipe screenCount eventID s.currentScreenID
        if newScreenID ≠ s.currentScreenID then
          ({ s with currentScreenID := newScreenID },
           [LifeEvent.deactivate s.currentScreenID, LifeEvent.destroy s.currentScreenID,
            LifeEvent.construct newScreenID, LifeEvent.activate newScreenID])
        else
          (s, [])
    else
      (s, [])
  else
    (s, [])

/-- The sibling tasks disabled on entering the LOWBATT screen, exactly as
enumerated at lines 152-160 of P_UIManager.cpp (build without
KILL_INSTALLED). -/
inductive SiblingTask where
  | comboTemperatureHumiditySensor
  | comboPressureHumiditySensor
  | particleSensor
  | co2Sensor
  | vocSensor
  | multiGasSensor
  | mqttUpdate
  | geigerSensor
  | geoLocation
deriving DecidableEq, Repr

/-- State touched by the low-battery branch of Proc_UIManager::service:
the current screen id, the number of disable() calls issued to each
enumerated sibling task, and whether ESP.restart() was invoked. -/
structure PowerUIState where
  currentScreenID : Int
  disableCount : SiblingTask → Nat
  restarted : Bool

/-- The low-battery handling of Proc_UIManager::service (lines 120-173),
applied to the averaged voltage getVolt() of one tick: when the averaged
voltage is at or below VOLT_LOW and the current screen is not the LOWBATT
screen, deactivate and delete the current screen, make LOWBATT current,
construct and activate the LOWBATT screen and disable every enumerated
sibling task; when already on the LOWBATT screen, nothing happens; otherwise
(voltage above VOLT_LOW) a restart is requested exactly when the voltage
exceeds the VOLT_LOW/VOLT_HIGH midpoint while on the LOWBATT screen.  The
second component is the trace of screen lifecycle events. -/
def lowBattTick (vLow vHigh : ℚ) (lowbattScreen : Int) (volt : ℚ)
    (s : PowerUIState) : PowerUIState × List LifeEvent :=
  if volt ≤ vLow then
    if s.currentScreenID ≠ lowbattScreen then
      ({ currentScreenID := lowbattScreen,
         disableCount := fun t => s.disableCount t + 1,
         restarted := s.restarted },
       [LifeEvent.deactivate s.currentScreenID, LifeEvent.destroy s.currentScreenID,
        LifeEvent.construct lowbattScreen, LifeEvent.activate lowbattScreen])
    else
      (s, [])
  else if volt > (vHigh + vLow) / 2 ∧ s.currentScreenID = lowbattScreen then
    ({ s with restarted := true }, [])
  else
    (s, [])

/-- Iterated low-battery handling over a sequence of per-tick averaged
voltages, accumulating the lifecycle traces in order. -/
def runLowBatt (vLow vHigh : ℚ) (lowbattScreen : Int) :
    List ℚ → PowerUIState → PowerUIState × List LifeEvent
  | [], s => (s, [])
  | v :: rest, s =>
      ((runLowBatt vLow vHigh lowbattScreen rest (lowBattTick vLow vHigh lowbattScreen v s).1).1,
       (lowBattTick vLow vHigh lowbattScreen v s).2 ++
         (runLowBatt vLow vHigh lowbattScreen rest (lowBattTick vLow vHigh lowbattScreen v s).1).2)

/-- The instantaneous state-of-charge expression of Proc_UIManager::service
line 116: 100 / (VOLT_HIGH - VOLT_LOW) * (getVolt() - VOLT_LOW), over the
rationals. -/
def socFormula (vHigh vLow v : ℚ) : ℚ :=
  100 / (vHigh - vLow) * (v - vLow)

/-- The value pushed into the SoC averaging filter at line 117:
SoC > 100 ? 100 : SoC. -/
def socPushed (vHigh vLow v : ℚ) : ℚ :=
  if socFormula vHigh vLow v > 100 then 100 else socFormula vHigh vLow v

/-- The idle-timeout expression of Proc_UIManager::service line 385, parsed
with C precedence:
(isDisplayOn && millis() - eventTime > BACKLIGHT_TIMEOUT * (1 + (getSoC() > 95))) ? 1 : 0,
where elapsed stands for the unsigned difference millis() - eventTime. -/
def idleTimeoutExpr (isOn : Bool) (elapsed base : Nat) (soc : ℚ) : Nat :=
  if isOn = true ∧ elapsed > base * (1 + (if soc > 95 then 1 else 0)) then 1 else 0

/-- The no-event branch of Proc_UIManager::service (lines 381-392): when the
if condition (a nonzero value of the idle-timeout expression) holds, call
displayOff(); returns the resulting display state. -/
def noEventTick (isOn : Bool) (now eventTime base : Nat) (soc : ℚ) : Bool :=
  if idleTimeoutExpr isOn (sub32 now eventTime) base soc ≠ 0 then false else isOn

/-- A concrete power/UI state on screen 2 with no disable calls issued yet,
used to instantiate the universally quantified theorems below. -/
def powerStateDemo : PowerUIState :=
  { currentScreenID := 2, disableCount := fun _ => 0, restarted := false }

/-- A concrete navigation state: display on, screen 2, rotation 0. -/
def dispStateDemo : DispState :=
  { isDisplayOn := true, currentScreenID := 2, currentScreenRotation := 0 }

/-! ## Helper lemmas -/

/-- sub32 computes the plain difference when the 32-bit clock has not
wrapped between the two instants. -/
theorem sub32_eq_sub (a b : Nat) (h1 : b ≤ a) (h2 : a < b + 4294967296) :
    sub32 a b = a - b := by
  unfold sub32
  omega

/-- The four-step trace deactivate old, destroy old, construct new,
activate new satisfies the replacement-safety predicate. -/
theorem replacement_trace_safe (old new : Int) :
    ScreenReplacementSafe old new
      [LifeEvent.deactivate old, LifeEvent.destroy old,
       LifeEvent.construct new, LifeEvent.activate new] := by
  constructor
  · exact ⟨0, 1, 2, 3, by omega, by omega, by omega, rfl, rfl, rfl, rfl⟩
  · intro acts hacts
    simp only [List.scanl_cons, List.scanl_nil, activeStep, List.erase_cons_head,
      List.mem_append, List.mem_singleton] at hacts
    rcases hacts with h | h | h | h | h <;> simp [h]

/-- Ticks whose averaged voltage stays at or below VOLT_LOW leave the state
unchanged once the LOWBATT screen is current, and emit no lifecycle events. -/
theorem runLowBatt_stable (vLow vHigh : ℚ) (lowbattScreen : Int) (volts : List ℚ)
    (s : PowerUIState) (hlow : ∀ v ∈ volts, v ≤ vLow)
    (hs : s.currentScreenID = lowbattScreen) :
    runLowBatt vLow vHigh lowbattScreen volts s = (s, []) := by
  induction volts with
  | nil => rfl
  | cons v rest ih =>
      have hv : v ≤ vLow := hlow v (List.mem_cons_self v rest)
      have hrest : ∀ x ∈ rest, x ≤ vLow := fun x hx => hlow x (List.mem_cons_of_mem v hx)
      have htick : lowBattTick vLow vHigh lowbattScreen v s = (s, []) := by
        unfold lowBattTick
        rw [if_pos hv, if_neg (by simp [hs])]
      simp only [runLowBatt, htick, ih hrest, List.nil_append]

/-! ## Claim theorems -/

/-- C10: handleSwipe returns the input screen id unchanged for every event
code other than left and right; in particular backward, wave, and decoded
up or down gestures never change the current screen id. -/
theorem handleSwipe_unchanged (screenCount : Nat) (evt : Gesture) (curScrn : Int)
    (h1 : evt ≠ Gesture.left) (h2 : evt ≠ Gesture.right) :
    handleSwipe screenCount evt curScrn = curScrn := by
  unfold handleSwipe
  rw [if_neg h2, if_neg h1]

theorem handleSwipe_unchanged_witness :
    Gesture.backward ≠ Gesture.left ∧ Gesture.backward ≠ Gesture.right ∧
    handleSwipe 9 Gesture.backward 3 = 3 :=
  ⟨by decide, by decide,
   handleSwipe_unchanged 9 Gesture.backward 3 (by decide) (by decide)⟩

/-- C9 counterexample: the raw code 42 lies outside the closed gesture set,
yet the decode step returns it unchanged instead of the none sentinel. -/
theorem getUserEvent_unknown_not_none :
    getUserEvent (Gesture.other 42) 0 = Gesture.other 42 ∧
    Gesture.other 42 ≠ Gesture.none := by decide

/-- C9 amended: for every raw gesture code outside the closed set, the decode
step returns the unrecognized code unchanged, under either rotation; it is a
total function and never treats the code as an error. -/
theorem getUserEvent_unknown_passthrough (code rot : Nat) :
    getUserEvent (Gesture.other code) rot = Gesture.other code := rfl

theorem getUserEvent_unknown_passthrough_witness :
    getUserEvent (Gesture.other 7) 2 = Gesture.other 7 :=
  getUserEvent_unknown_passthrough 7 2

/-- C6 counterexample: with the screen not rotated (rotation 0), a raw up
gesture decodes to left, not to right as the claimed up-right swap for the
unrotated case states. -/
theorem getUserEvent_rotation_cex :
    getUserEvent Gesture.up 0 = Gesture.left ∧
    getUserEvent Gesture.up 0 ≠ Gesture.right := by decide

/-- C6 amended: the decode step is a pure function of the raw code and the
rotation; when not rotated (0) it maps up to left, down to right, left to
down, right to up, and when rotated 180 degrees (2) it maps up to right,
down to left, left to up, right to down (quarter-turn cycles, not involutive
swaps); forward, backward, clockwise, counter-clockwise, wave and none pass
through unchanged under both rotations. -/
theorem getUserEvent_remap_characterization :
    getUserEvent Gesture.up 0 = Gesture.left ∧
    getUserEvent Gesture.down 0 = Gesture.right ∧
    getUserEvent Gesture.left 0 = Gesture.down ∧
    getUserEvent Gesture.right 0 = Gesture.up ∧
    getUserEvent Gesture.up 2 = Gesture.right ∧
    getUserEvent Gesture.down 2 = Gesture.left ∧
    getUserEvent Gesture.left 2 = Gesture.up ∧
    getUserEvent Gesture.right 2 = Gesture.down ∧
    getUserEvent Gesture.forward 0 = Gesture.forward ∧
    getUserEvent Gesture.forward 2 = Gesture.forward ∧
    getUserEvent Gesture.backward 0 = Gesture.backward ∧
    getUserEvent Gesture.backward 2 = Gesture.backward ∧
    getUserEvent Gesture.clockwise 0 = Gesture.clockwise ∧
    getUserEvent Gesture.clockwise 2 = Gesture.clockwise ∧
    getUserEvent Gesture.cntrclockwise 0 = Gesture.cntrclockwise ∧
    getUserEvent Gesture.cntrclockwise 2 = Gesture.cntrclockwise ∧
    getUserEvent Gesture.wave 0 = Gesture.wave ∧
    getUserEvent Gesture.wave 2 = Gesture.wave ∧
    getUserEvent Gesture.none 0 = Gesture.none ∧
    getUserEvent Gesture.none 2 = Gesture.none := by decide

/-- C2: the event latch never holds more than one pending event: running the
gesture interrupt handler while the flag is already set is a complete no-op
(flag, event timestamp and forced-dispatch count all untouched), and two
interrupts fired from a drained latch before the next drain leave exactly
the state produced by the first interrupt alone, with exactly one pending
event. -/
theorem onGesture_at_most_one (s : GestureLatch) (t1 t2 : Nat)
    (hSet : s.eventFlag = true) :
    onGesture s t1 = s ∧
    onGesture (onGesture { s with eventFlag := false } t1) t2 =
      onGesture { s with eventFlag := false } t1 ∧
    pendingEvents (onGesture (onGesture { s with eventFlag := false } t1) t2) = 1 := by
  refine ⟨?_, ?_, ?_⟩ <;> simp [onGesture, pendingEvents, hSet]

theorem onGesture_at_most_one_witness :
    (GestureLatch.mk true 7 1).eventFlag = true ∧
    (onGesture (GestureLatch.mk true 7 1) 50 = GestureLatch.mk true 7 1 ∧
     onGesture (onGesture { GestureLatch.mk true 7 1 with eventFlag := false } 50) 60 =
       onGesture { GestureLatch.mk true 7 1 with eventFlag := false } 50 ∧
     pendingEvents
       (onGesture (onGesture { GestureLatch.mk true 7 1 with eventFlag := false } 50) 60) = 1) :=
  ⟨rfl, onGesture_at_most_one (GestureLatch.mk true 7 1) 50 60 rfl⟩

/-- C3 counterexample: a service tick at millis 500 finds the latch set with
the last processed event at millis 0; the debounce window has not passed and
the tick ends with the latch still set, against the claim that the latch is
cleared by the end of every tick that finds it set. -/
theorem event_gate_not_cleared_cex :
    (serviceEventGate { eventFlag := true, lastEventProcessing := 0 } 500).1.eventFlag
      = true := by decide

/-- C3 amended: on a service tick that finds the latch set, the latch is
cleared only when the debounce check passes (strictly more than 1000 ms of
the 32-bit millis clock since the last processed event); an event arriving
within the window is not processed on that tick and remains latched, and it
is then processed, with the latch cleared, on a later tick whose time clears
the window. -/
theorem event_gate_deferred (s : EventGate) (now later : Nat)
    (hFlag : s.eventFlag = true)
    (hDeb : sub32 now s.lastEventProcessing ≤ 1000)
    (hLater : sub32 later s.lastEventProcessing > 1000) :
    serviceEventGate s now = (s, false) ∧
    serviceEventGate (serviceEventGate s now).1 later =
      ({ eventFlag := false, lastEventProcessing := later }, true) := by
  have hnot : ¬ sub32 now s.lastEventProcessing > 1000 := by omega
  have h1 : serviceEventGate s now = (s, false) := by
    simp [serviceEventGate, hFlag, hnot]
  refine ⟨h1, ?_⟩
  rw [h1]
  simp [serviceEventGate, hFlag, hLater]

theorem event_gate_deferred_witness :
    (EventGate.mk true 0).eventFlag = true ∧
    sub32 500 (EventGate.mk true 0).lastEventProcessing ≤ 1000 ∧
    sub32 2000 (EventGate.mk true 0).lastEventProcessing > 1000 ∧
    (serviceEventGate (EventGate.mk true 0) 500 = (EventGate.mk true 0, false) ∧
     serviceEventGate (serviceEventGate (EventGate.mk true 0) 500).1 2000 =
       ({ eventFlag := false, lastEventProcessing := 2000 }, true)) :=
  ⟨rfl, by decide, by decide,
   event_gate_deferred (EventGate.mk true 0) 500 2000 rfl (by decide) (by decide)⟩

/-- C1: over any run of service ticks that each see an averaged voltage at or
below VOLT_LOW, started on a screen other than LOWBATT, the forced transition
happens exactly once: the whole run emits exactly one deactivate-destroy-
construct-activate trace (on the first tick), the LOWBATT screen is current
afterwards, disable() has been issued to each of the nine enumerated sibling
tasks exactly once, and no later low tick transitions or disables again (nor
requests a restart). -/
theorem lowbatt_transition_once (vLow vHigh : ℚ) (lowbattScreen : Int)
    (v : ℚ) (rest : List ℚ) (s : PowerUIState)
    (hv : v ≤ vLow) (hrest : ∀ x ∈ rest, x ≤ vLow)
    (hs : s.currentScreenID ≠ lowbattScreen) :
    (runLowBatt vLow vHigh lowbattScreen (v :: rest) s).1.currentScreenID = lowbattScreen ∧
    (runLowBatt vLow vHigh lowbattScreen (v :: rest) s).2 =
      [LifeEvent.deactivate s.currentScreenID, LifeEvent.destroy s.currentScreenID,
       LifeEvent.construct lowbattScreen, LifeEvent.activate lowbattScreen] ∧
    (runLowBatt vLow vHigh lowbattScreen (v :: rest) s).1.disableCount
        SiblingTask.comboTemperatureHumiditySensor =
      s.disableCount SiblingTask.comboTemperatureHumiditySensor + 1 ∧
    (runLowBatt vLow vHigh lowbattScreen (v :: rest) s).1.disableCount
        SiblingTask.comboPressureHumiditySensor =
      s.disableCount SiblingTask.comboPressureHumiditySensor + 1 ∧
    (runLowBatt vLow vHigh lowbattScreen (v :: rest) s).1.disableCount
        SiblingTask.particleSensor = s.disableCount SiblingTask.particleSensor + 1 ∧
    (runLowBatt vLow vHigh lowbattScreen (v :: rest) s).1.disableCount
        SiblingTask.co2Sensor = s.disableCount SiblingTask.co2Sensor + 1 ∧
    (runLowBatt vLow vHigh lowbattScreen (v :: rest) s).1.disableCount
        SiblingTask.vocSensor = s.disableCount SiblingTask.vocSensor + 1 ∧
    (runLowBatt vLow vHigh lowbattScreen (v :: rest) s).1.disableCount
        SiblingTask.multiGasSensor = s.disableCount SiblingTask.multiGasSensor + 1 ∧
    (runLowBatt vLow vHigh lowbattScreen (v :: rest) s).1.disableCount
        SiblingTask.mqttUpdate = s.disableCount SiblingTask.mqttUpdate + 1 ∧
    (runLowBatt vLow vHigh lowbattScreen (v :: rest) s).1.disableCount
        SiblingTask.geigerSensor = s.disableCount SiblingTask.geigerSensor + 1 ∧
    (runLowBatt vLow vHigh lowbattScreen (v :: rest) s).1.disableCount
        SiblingTask.geoLocation = s.disableCount SiblingTask.geoLocation + 1 ∧
    (runLowBatt vLow vHigh lowbattScreen (v :: rest) s).1.restarted = s.restarted := by
  have htick : lowBattTick vLow vHigh lowbattScreen v s =
      ({ currentScreenID := lowbattScreen,
         disableCount := fun t => s.disableCount t + 1,
         restarted := s.restarted },
       [LifeEvent.deactivate s.currentScreenID, LifeEvent.destroy s.currentScreenID,
        LifeEvent.construct lowbattScreen, LifeEvent.activate lowbattScreen]) := by
    unfold lowBattTick
    rw [if_pos hv, if_pos hs]
  have hstable : runLowBatt vLow vHigh lowbattScreen rest
      ({ currentScreenID := lowbattScreen,
         disableCount := fun t => s.disableCount t + 1,
         restarted := s.restarted } : PowerUIState) =
      ({ currentScreenID := lowbattScreen,
         disableCount := fun t => s.disableCount t + 1,
         restarted := s.restarted }, []) :=
    runLowBatt_stable vLow vHigh lowbattScreen rest _ hrest rfl
  simp only [runLowBatt, htick, hstable, List.append_nil]
  simp

theorem lowbatt_transition_once_witness :
    (3 : ℚ) ≤ 4 ∧ (∀ x ∈ ([2] : List ℚ), x ≤ (4 : ℚ)) ∧
    powerStateDemo.currentScreenID ≠ 0 ∧
    ((runLowBatt 4 5 0 [3, 2] powerStateDemo).1.currentScreenID = 0 ∧
     (runLowBatt 4 5 0 [3, 2] powerStateDemo).2 =
       [LifeEvent.deactivate powerStateDemo.currentScreenID,
        LifeEvent.destroy powerStateDemo.currentScreenID,
        LifeEvent.construct 0, LifeEvent.activate 0] ∧
     (runLowBatt 4 5 0 [3, 2] powerStateDemo).1.disableCount
         SiblingTask.comboTemperatureHumiditySensor =
       powerStateDemo.disableCount SiblingTask.comboTemperatureHumiditySensor + 1 ∧
     (runLowBatt 4 5 0 [3, 2] powerStateDemo).1.disableCount
         SiblingTask.comboPressureHumiditySensor =
       powerStateDemo.disableCount SiblingTask.comboPressureHumiditySensor + 1 ∧
     (runLowBatt 4 5 0 [3, 2] powerStateDemo).1.disableCount
         SiblingTask.particleSensor =
       powerStateDemo.disableCount SiblingTask.particleSensor + 1 ∧
     (runLowBatt 4 5 0 [3, 2] powerStateDemo).1.disableCount
         SiblingTask.co2Sensor = powerStateDemo.disableCount SiblingTask.co2Sensor + 1 ∧
     (runLowBatt 4 5 0 [3, 2] powerStateDemo).1.disableCount
         SiblingTask.vocSensor = powerStateDemo.disableCount SiblingTask.vocSensor + 1 ∧
     (runLowBatt 4 5 0 [3, 2] powerStateDemo).1.disableCount
         SiblingTask.multiGasSensor =
       powerStateDemo.disableCount SiblingTask.multiGasSensor + 1 ∧
     (runLowBatt 4 5 0 [3, 2] powerStateDemo).1.disableCount
         SiblingTask.mqttUpdate = powerStateDemo.disableCount SiblingTask.mqttUpdate + 1 ∧
     (runLowBatt 4 5 0 [3, 2] powerStateDemo).1.disableCount
         SiblingTask.geigerSensor =
       powerStateDemo.disableCount SiblingTask.geigerSensor + 1 ∧
     (runLowBatt 4 5 0 [3, 2] powerStateDemo).1.disableCount
         SiblingTask.geoLocation =
       powerStateDemo.disableCount SiblingTask.geoLocation + 1 ∧
     (runLowBatt 4 5 0 [3, 2] powerStateDemo).1.restarted = powerStateDemo.restarted) :=
  ⟨by norm_num, by norm_num, by decide,
   lowbatt_transition_once 4 5 0 3 [2] powerStateDemo (by norm_num) (by norm_num)
     (by decide)⟩

/-- C4 (evaluation at the failing input): while the display is on and the
current screen is LOWBATT, the dispatch chain of service performs no action
at all, for every event: the state is returned unchanged (in particular the
display stays on for a forward event, because the LOWBATT else-if branch
consumes the event before the forward branch can run and its eventID
normalisation is never read again) and no lifecycle event is emitted. -/
theorem lowbatt_events_ignored (lowbattScreen setupScreen : Int) (screenCount : Nat)
    (cancelEvent : Bool) (s : DispState) (e : Gesture)
    (hOn : s.isDisplayOn = true) (hLb : s.currentScreenID = lowbattScreen) :
    dispatchEvent lowbattScreen setupScreen screenCount cancelEvent s e = (s, []) := by
  unfold dispatchEvent
  simp [hOn, hLb]

theorem lowbatt_events_ignored_witness :
    (DispState.mk true 0 0).isDisplayOn = true ∧
    (DispState.mk true 0 0).currentScreenID = 0 ∧
    dispatchEvent 0 9 9 false (DispState.mk true 0 0) Gesture.forward =
      (DispState.mk true 0 0, []) :=
  ⟨rfl, rfl,
   lowbatt_events_ignored 0 9 9 false (DispState.mk true 0 0) Gesture.forward rfl rfl⟩

/-- C5: in every transition that replaces the live Screen instance - the
setup entry on counter-clockwise, the left/right swipe, and the forced
LOWBATT transition - the emitted lifecycle trace is exactly deactivate the
outgoing, destroy the outgoing, construct the incoming, activate the
incoming, in that strict order, and at no point of the trace are two screen
instances activated at once. -/
theorem screen_replacement_ordering (lowbattScreen setupScreen : Int)
    (screenCount : Nat) (s : DispState) (evt : Gesture)
    (vLow vHigh volt : ℚ) (ps : PowerUIState)
    (hOn : s.isDisplayOn = true) (hNotLb : s.currentScreenID ≠ lowbattScreen)
    (hEvt : evt = Gesture.left ∨ evt = Gesture.right)
    (hMove : handleSwipe screenCount evt s.currentScreenID ≠ s.currentScreenID)
    (hVolt : volt ≤ vLow) (hPs : ps.currentScreenID ≠ lowbattScreen) :
    ((dispatchEvent lowbattScreen setupScreen screenCount false s Gesture.cntrclockwise).2 =
        [LifeEvent.deactivate s.currentScreenID, LifeEvent.destroy s.currentScreenID,
         LifeEvent.construct setupScreen, LifeEvent.activate setupScreen] ∧
      ScreenReplacementSafe s.currentScreenID setupScreen
        (dispatchEvent lowbattScreen setupScreen screenCount false s Gesture.cntrclockwise).2) ∧
    ((dispatchEvent lowbattScreen setupScreen screenCount false s evt).2 =
        [LifeEvent.deactivate s.currentScreenID, LifeEvent.destroy s.currentScreenID,
         LifeEvent.construct (handleSwipe screenCount evt s.currentScreenID),
         LifeEvent.activate (handleSwipe screenCount evt s.currentScreenID)] ∧
      ScreenReplacementSafe s.currentScreenID (handleSwipe screenCount evt s.currentScreenID)
        (dispatchEvent lowbattScreen setupScreen screenCount false s evt).2) ∧
    ((lowBattTick vLow vHigh lowbattScreen volt ps).2 =
        [LifeEvent.deactivate ps.currentScreenID, LifeEvent.destroy ps.currentScreenID,
         LifeEvent.construct lowbattScreen, LifeEvent.activate lowbattScreen] ∧
      ScreenReplacementSafe ps.currentScreenID lowbattScreen
        (lowBattTick vLow vHigh lowbattScreen volt ps).2) := by
  have hsetup :
      (dispatchEvent lowbattScreen setupScreen screenCount false s Gesture.cntrclockwise).2 =
      [LifeEvent.deactivate s.currentScreenID, LifeEvent.destroy s.currentScreenID,
       LifeEvent.construct setupScreen, LifeEvent.activate setupScreen] := by
    unfold dispatchEvent
    simp [hOn, hNotLb]
  have hswipe : (dispatchEvent lowbattScreen setupScreen screenCount false s evt).2 =
      [LifeEvent.deactivate s.currentScreenID, LifeEvent.destroy s.currentScreenID,
       LifeEvent.construct (handleSwipe screenCount evt s.currentScreenID),
       LifeEvent.activate (handleSwipe screenCount evt s.currentScreenID)] := by
    rcases hEvt with h | h <;> subst h <;>
      · unfold dispatchEvent
        simp [hOn, hNotLb, hMove]
  have hlow : (lowBattTick vLow vHigh lowbattScreen volt ps).2 =
      [LifeEvent.deactivate ps.currentScreenID, LifeEvent.destroy ps.currentScreenID,
       LifeEvent.construct lowbattScreen, LifeEvent.activate lowbattScreen] := by
    unfold lowBattTick
    rw [if_pos hVolt, if_pos hPs]
  refine ⟨⟨hsetup, ?_⟩, ⟨hswipe, ?_⟩, ⟨hlow, ?_⟩⟩
  · rw [hsetup]
    exact replacement_trace_safe _ _
  · rw [hswipe]
    exact replacement_trace_safe _ _
  · rw [hlow]
    exact replacement_trace_safe _ _

theorem screen_replacement_ordering_witness :
    dispStateDemo.isDisplayOn = true ∧
    dispStateDemo.currentScreenID ≠ 0 ∧
    (Gesture.right = Gesture.left ∨ Gesture.right = Gesture.right) ∧
    handleSwipe 9 Gesture.right dispStateDemo.currentScreenID ≠
      dispStateDemo.currentScreenID ∧
    (3 : ℚ) ≤ 4 ∧ powerStateDemo.currentScreenID ≠ 0 ∧
    (((dispatchEvent 0 9 9 false dispStateDemo Gesture.cntrclockwise).2 =
        [LifeEvent.deactivate dispStateDemo.currentScreenID,
         LifeEvent.destroy dispStateDemo.currentScreenID,
         LifeEvent.construct 9, LifeEvent.activate 9] ∧
      ScreenReplacementSafe dispStateDemo.currentScreenID 9
        (dispatchEvent 0 9 9 false dispStateDemo Gesture.cntrclockwise).2) ∧
     ((dispatchEvent 0 9 9 false dispStateDemo Gesture.right).2 =
        [LifeEvent.deactivate dispStateDemo.currentScreenID,
         LifeEvent.destroy dispStateDemo.currentScreenID,
         LifeEvent.construct (handleSwipe 9 Gesture.right dispStateDemo.currentScreenID),
         LifeEvent.activate (handleSwipe 9 Gesture.right dispStateDemo.currentScreenID)] ∧
      ScreenReplacementSafe dispStateDemo.currentScreenID
        (handleSwipe 9 Gesture.right dispStateDemo.currentScreenID)
        (dispatchEvent 0 9 9 false dispStateDemo Gesture.right).2) ∧
     ((lowBattTick 4 5 0 3 powerStateDemo).2 =
        [LifeEvent.deactivate powerStateDemo.currentScreenID,
         LifeEvent.destroy powerStateDemo.currentScreenID,
         LifeEvent.construct 0, LifeEvent.activate 0] ∧
      ScreenReplacementSafe powerStateDemo.currentScreenID 0
        (lowBattTick 4 5 0 3 powerStateDemo).2)) :=
  ⟨rfl, by decide, Or.inr rfl, by decide, by norm_num, by decide,
   screen_replacement_ordering 0 9 9 dispStateDemo Gesture.right 4 5 3 powerStateDemo
     rfl (by decide) (Or.inr rfl) (by decide) (by norm_num) (by decide)⟩

/-- C7: on a tick with no pending event, if the display is on, it is turned
off exactly when the idle time since the last user-event timestamp exceeds
the idle threshold, and the threshold is twice the base timeout when the
averaged state of charge is above 95 and the base timeout otherwise; with the
display already off nothing changes.  (The trailing ternary of the source
expression is redundant inside the if condition and does not alter this.) -/
theorem idle_timeout_threshold (now eventTime base : Nat) (soc : ℚ)
    (h1 : eventTime ≤ now) (h2 : now < eventTime + 4294967296) :
    (noEventTick true now eventTime base soc = false ↔
        now - eventTime > (if soc > 95 then 2 * base else base)) ∧
    noEventTick false now eventTime base soc = false := by
  have hsub : sub32 now eventTime = now - eventTime := sub32_eq_sub now eventTime h1 h2
  constructor
  · unfold noEventTick idleTimeoutExpr
    rw [hsub]
    by_cases hsoc : soc > 95
    · simp only [hsoc, if_true, eq_self_iff_true, true_and]
      constructor
      · intro h
        by_contra hc
        simp only [not_lt] at hc
        have : ¬ now - eventTime > base * (1 + 1) := by omega
        simp [this] at h
      · intro h
        have : now - eventTime > base * (1 + 1) := by omega
        simp [this]
    · simp only [hsoc, if_false, eq_self_iff_true, true_and]
      constructor
      · intro h
        by_contra hc
        simp only [not_lt] at hc
        have hng : ¬ now - eventTime > base * (1 + 0) := by omega
        simp [hng] at h
        omega
      · intro h
        have hg : now - eventTime > base * (1 + 0) := by omega
        simp [hg]
        omega
  · simp [noEventTick, idleTimeoutExpr]

theorem idle_timeout_threshold_witness :
    (5 : Nat) ≤ 200000 ∧ (200000 : Nat) < 5 + 4294967296 ∧
    ((noEventTick true 200000 5 60000 50 = false ↔
        200000 - 5 > (if (50 : ℚ) > 95 then 2 * 60000 else 60000)) ∧
     noEventTick false 200000 5 60000 50 = false) :=
  ⟨by decide, by decide, idle_timeout_threshold 200000 5 60000 50 (by decide) (by decide)⟩

/-- C8 counterexample: with calibration points VOLT_LOW = 3 and VOLT_HIGH = 4
and an averaged voltage of 2, strictly below VOLT_LOW, the value pushed into
the SoC averaging filter is -100, outside [0, 100]: the source clamps the
linear state-of-charge expression only from above. -/
theorem soc_pushed_negative_cex : socPushed 4 3 2 < 0 := by
  norm_num [socPushed, socFormula]

/-- C8 amended: every value pushed into the SoC averaging filter is at most
100, and when the averaged voltage is at least VOLT_LOW (with
VOLT_LOW < VOLT_HIGH) the pushed value lies in [0, 100]; for averaged
voltages strictly below VOLT_LOW the pushed value is negative, since only the
upper clamp exists. -/
theorem soc_pushed_clamp (vHigh vLow v : ℚ) (hlt : vLow < vHigh) (hv : vLow ≤ v) :
    0 ≤ socPushed vHigh vLow v ∧ socPushed vHigh vLow v ≤ 100 := by
  have hpos : 0 < 100 / (vHigh - vLow) := by
    apply div_pos
    · norm_num
    · linarith
  have hform : 0 ≤ socFormula vHigh vLow v := by
    unfold socFormula
    apply mul_nonneg (le_of_lt hpos)
    linarith
  unfold socPushed
  split_ifs with h
  · constructor
    · norm_num
    · norm_num
  · constructor
    · exact hform
    · linarith [not_lt.mp h]

theorem soc_pushed_clamp_witness :
    (4 : ℚ) < 5 ∧ (4 : ℚ) ≤ 5 ∧
    (0 ≤ socPushed 5 4 5 ∧ socPushed 5 4 5 ≤ 100) :=
  ⟨by norm_num, by norm_num, soc_pushed_clamp 5 4 5 (by norm_num) (by norm_num)⟩
